import Mathlib

/-!
Verification development for the binance-futures-test repository.

The repository contains two variants of the order-placement client:
* `src/mainnet/orderExample.py` (the "mainnet" variant), and
* `src/testnet/order.py` (the "testnet" variant).

Python floats are modelled as exact rationals (`ℚ`), following the spec's
requirement that all tick/step arithmetic be exact decimal arithmetic.
Tick sizes and step sizes are valid when they are power-of-ten fractions
(spec §3); the embedding carries the decimal exponent `p` with
`size = 10 ^ (-p)`, which is exactly the value
`int(round(-math.log(size, 10), 0))` that the source computes for a valid
size, and likewise the exponent that `Decimal(str(size)).normalize()`
carries in the mainnet variant.
-/

/-- Python's builtin `round` on a number with `ndigits` omitted:
round to the nearest integer, ties to the even neighbour. -/
def rne (x : ℚ) : ℤ :=
  if x - ⌊x⌋ < 1/2 then ⌊x⌋
  else if 1/2 < x - ⌊x⌋ then ⌊x⌋ + 1
  else if ⌊x⌋ % 2 = 0 then ⌊x⌋ else ⌊x⌋ + 1

/-- Rounding toward zero, the behaviour of `decimal.ROUND_DOWN`. -/
def truncTowardZero (x : ℚ) : ℤ :=
  if 0 ≤ x then ⌊x⌋ else ⌈x⌉

/-- Python's `round(x, ndigits)`: round to `ndigits` decimal places,
ties to even. -/
def pyRound (ndigits : ℕ) (x : ℚ) : ℚ :=
  (rne (x * 10 ^ ndigits) : ℚ) / 10 ^ ndigits

/-- Python's `str.upper` (ASCII case mapping, which covers every label the
configuration format uses). -/
def pyUpper (s : String) : String :=
  String.mk (s.data.map Char.toUpper)

/-- Mainnet `SymbolInfo.round_step_size` (orderExample.py lines 27-31):
`Decimal(str(quantity)).quantize(Decimal(str(step)).normalize(), ROUND_DOWN)`.
For a valid `step_size = 10 ^ (-p)` the normalized decimal has exponent
`-p`, so quantize truncates toward zero at `p` decimal digits. -/
def mn_round_step_size (p : ℕ) (quantity : ℚ) : ℚ :=
  (truncTowardZero (quantity * 10 ^ p) : ℚ) / 10 ^ p

/-- Mainnet `SymbolInfo.round_tick_size` (orderExample.py lines 33-37):
identical body with `tick_size` in place of `step_size`. -/
def mn_round_tick_size (p : ℕ) (price : ℚ) : ℚ :=
  (truncTowardZero (price * 10 ^ p) : ℚ) / 10 ^ p

/-- Testnet `SymbolInfo.round_step_size` (order.py lines 28-32):
`round(round(quantity / step_size) * step_size, precision)` with
`precision = int(round(-math.log(step_size, 10), 0)) = p`. -/
def tn_round_step_size (p : ℕ) (quantity : ℚ) : ℚ :=
  let step_size : ℚ := ((10 : ℚ) ^ p)⁻¹
  pyRound p ((rne (quantity / step_size) : ℚ) * step_size)

/-- Testnet `SymbolInfo.round_tick_size` (order.py lines 34-38):
identical body with `tick_size` in place of `step_size`. -/
def tn_round_tick_size (p : ℕ) (price : ℚ) : ℚ :=
  let tick_size : ℚ := ((10 : ℚ) ^ p)⁻¹
  pyRound p ((rne (price / tick_size) : ℚ) * tick_size)

/-- Testnet `SymbolInfo` (order.py lines 10-26).  `tick_size` and
`step_size` are carried as their decimal exponents (`tick_size_prec`,
`step_size_prec`), with `tick_size = 10 ^ (-tick_size_prec)` and
`step_size = 10 ^ (-step_size_prec)`, per the validity invariant of §3 of
the spec; this exponent is the `precision` the source recomputes from the
size with `-math.log(size, 10)`. -/
structure SymbolInfo where
  symbol : String
  price_precision : ℕ
  quantity_precision : ℕ
  min_price : ℚ
  max_price : ℚ
  tick_size_prec : ℕ
  min_qty : ℚ
  max_qty : ℚ
  step_size_prec : ℕ
  min_notional : ℚ

/-- Testnet `SymbolInfo.round_step_size` as a method on the record. -/
def SymbolInfo.round_step_size (si : SymbolInfo) (quantity : ℚ) : ℚ :=
  tn_round_step_size si.step_size_prec quantity

/-- Testnet `SymbolInfo.round_tick_size` as a method on the record. -/
def SymbolInfo.round_tick_size (si : SymbolInfo) (price : ℚ) : ℚ :=
  tn_round_tick_size si.tick_size_prec price

/-- Shared `TradingParameters` record (order.py lines 40-48 and
orderExample.py lines 39-47; the two variants have identical
constructors). -/
structure TradingParameters where
  symbol : String
  leverage : ℤ
  side : String
  order_type : String
  usdt_amount : ℚ
  reduce_only : Bool

/-- The `TradingParameters.__init__` logic: the side label is uppercased
and compared with LONG; everything else is stored as given. -/
def mkTradingParameters (symbol : String) (leverage : ℤ) (side : String)
    (order_type : String) (usdt_amount : ℚ) (reduce_only : Bool) :
    TradingParameters :=
  { symbol := symbol
    leverage := leverage
    side := if pyUpper side = "LONG" then ("BUY") else ("SELL")
    order_type := pyUpper order_type
    usdt_amount := usdt_amount
    reduce_only := reduce_only }

/-- Testnet `BinanceFuturesClient._calculate_quantity` (order.py lines
143-199).  The function has no error path of its own: every branch falls
through to returning `final_quantity`. -/
def calculate_quantity (si : SymbolInfo) (usdt_amount current_price : ℚ) : ℚ :=
  let usdt := if usdt_amount < si.min_notional then si.min_notional else usdt_amount
  let raw0 := usdt / current_price
  let raw1 :=
    if raw0 < si.min_qty then
      if si.min_qty * current_price < si.min_notional then
        si.min_notional / current_price
      else si.min_qty
    else raw0
  let raw2 := if raw1 > si.max_qty then si.max_qty else raw1
  let final0 := si.round_step_size raw2
  if final0 * current_price < si.min_notional then
    (⌈si.min_notional / current_price * 1000⌉ : ℚ) / 1000
  else final0

/-- The `order_params` record that testnet `prepare_and_place_order`
assembles (order.py lines 235-245); absent keys are `none`. -/
structure OrderParams where
  symbol : String
  side : String
  order_type : String
  quantity : ℚ
  reduce_only : Bool
  price : Option ℚ
  time_in_force : Option String

/-- Testnet `BinanceFuturesClient.prepare_and_place_order` up to the
`place_order` call (order.py lines 213-248): quantity from
`_calculate_quantity`, protective limit price for LIMIT orders, and the
`if price:` truthiness check, under which a price of 0 (like a missing
price) adds no price/time-in-force key. -/
def prepare_order (tp : TradingParameters) (si : SymbolInfo)
    (current_price : ℚ) : OrderParams :=
  let quantity := calculate_quantity si tp.usdt_amount current_price
  let base : OrderParams :=
    { symbol := tp.symbol
      side := tp.side
      order_type := tp.order_type
      quantity := quantity
      reduce_only := tp.reduce_only
      price := none
      time_in_force := none }
  if tp.order_type = "LIMIT" then
    let adjustment : ℚ := if tp.side = "BUY" then 99/100 else 101/100
    let price := si.round_tick_size (current_price * adjustment)
    if price = 0 then base
    else { base with price := some price, time_in_force := some ("GTC") }
  else base

/-- The request body testnet `place_order` submits (order.py lines
266-280); absent keys are `none`. -/
structure ApiParams where
  symbol : String
  side : String
  type : String
  quantity : ℚ
  reduceOnly : Bool
  price : Option ℚ
  timeInForce : Option String

/-- Whether an `Except` computation ended in an error. -/
def isErr {ε α : Type} (e : Except ε α) : Bool :=
  match e with
  | Except.error _ => true
  | Except.ok _ => false

/-- Testnet `BinanceFuturesClient.place_order` (order.py lines 254-288) up
to the submission call: builds `params`; for LIMIT orders a missing price
raises `ValueError` and otherwise price and time-in-force are added; for
every other order type no price or time-in-force key is emitted. -/
def place_order (symbol side order_type : String) (quantity : ℚ)
    (reduce_only : Bool) (price : Option ℚ) (time_in_force : String) :
    Except String ApiParams :=
  let params : ApiParams :=
    { symbol := symbol
      side := side
      type := order_type
      quantity := quantity
      reduceOnly := reduce_only
      price := none
      timeInForce := none }
  if order_type = "LIMIT" then
    match price with
    | none => Except.error ("Price is required for LIMIT orders")
    | some p =>
        Except.ok { params with price := some p, timeInForce := some time_in_force }
  else Except.ok params

/-- The method names defined on the mainnet `BinanceFuturesClient` class
(orderExample.py lines 49-217). -/
def mainnet_defined_methods : List String :=
  ["__init__", "_validate_environment", "_confirm_mainnet_execution",
   "_load_configs", "_initialize_client", "prepare_and_place_order",
   "get_position_info"]

/-- The helper methods the mainnet `prepare_and_place_order` body invokes
(orderExample.py lines 136-205) that would have to exist for an order to
be computed and submitted. -/
def mainnet_order_methods : List String :=
  ["_set_leverage", "_get_current_price", "_calculate_quantity", "place_order"]

/-- One attribute lookup plus call on the mainnet client: a method name
not defined on the class raises `AttributeError` before any body can run;
a defined method's body may still fail for external reasons (missing
settings files, bad credentials), modelled by `body_ok`. -/
def call_method (m : String) (body_ok : Bool) : Except String Unit :=
  if mainnet_defined_methods.contains m then
    if body_ok then Except.ok () else Except.error (m ++ " raised")
  else Except.error ("AttributeError: " ++ m)

/-- Mainnet `BinanceFuturesClient.__init__` (orderExample.py lines 50-66):
the sequence of method calls it performs, in source order.  The three
Boolean parameters are the external outcomes of the defined methods that
touch the filesystem or the network; `true` is passed for the methods the
class does not define, whose bodies can never run. -/
def mainnet_init (validate_ok config_ok client_ok : Bool) :
    Except String Unit := do
  call_method ("_validate_environment") validate_ok
  call_method ("_load_configs") config_ok
  call_method ("_load_trading_parameters") true
  call_method ("_initialize_client") client_ok
  call_method ("_setup_logging") true
  call_method ("_get_symbol_info") true

/-- The symbol rules of the worked example in §8 of the spec:
stepSize 0.001, minQty 0.001, maxQty 1000, minNotional 5 (tickSize 0.1). -/
def siExample : SymbolInfo :=
  { symbol := "BTCUSDT"
    price_precision := 1
    quantity_precision := 3
    min_price := 1/10
    max_price := 1000000
    tick_size_prec := 1
    min_qty := 1/1000
    max_qty := 1000
    step_size_prec := 3
    min_notional := 5 }

/-- Symbol rules with a step size of 0.01, coarser than the hard-coded
0.001 grid of the final recompute in `_calculate_quantity`. -/
def siCoarseStep : SymbolInfo :=
  { symbol := "XRPUSDT"
    price_precision := 1
    quantity_precision := 2
    min_price := 1/10
    max_price := 1000000
    tick_size_prec := 1
    min_qty := 1/1000
    max_qty := 1000
    step_size_prec := 2
    min_notional := 5 }

/-- Symbol rules whose maxQty 2 cannot reach minNotional 5 at price 1. -/
def siSmallMax : SymbolInfo :=
  { symbol := "XUSDT"
    price_precision := 1
    quantity_precision := 3
    min_price := 1/10
    max_price := 1000000
    tick_size_prec := 1
    min_qty := 1/1000
    max_qty := 2
    step_size_prec := 3
    min_notional := 5 }

/-- A LIMIT BUY intent: side label LONG, 100 USDT notional. -/
def tpLimitBuy : TradingParameters :=
  mkTradingParameters ("BTCUSDT") 10 ("LONG") ("LIMIT") 100 false

/-- A LIMIT SELL intent: side label SHORT, 100 USDT notional. -/
def tpLimitSell : TradingParameters :=
  mkTradingParameters ("BTCUSDT") 10 ("SHORT") ("LIMIT") 100 false

/-- Evaluator for `rne` on the lower half of an interval between integers. -/
lemma rne_eq (x : ℚ) (n : ℤ) (h1 : (n : ℚ) ≤ x) (h2 : x < (n : ℚ) + 1/2) :
    rne x = n := by
  have hfl : ⌊x⌋ = n := Int.floor_eq_iff.mpr ⟨h1, by linarith⟩
  unfold rne
  rw [hfl, if_pos (by linarith)]

/-- Evaluator for `rne` on the upper half of an interval between integers. -/
lemma rne_eq_up (x : ℚ) (n : ℤ) (h1 : (n : ℚ) + 1/2 < x) (h2 : x < (n : ℚ) + 1) :
    rne x = n + 1 := by
  have hfl : ⌊x⌋ = n := Int.floor_eq_iff.mpr ⟨by linarith, by linarith⟩
  unfold rne
  rw [hfl, if_neg (by linarith), if_pos (by linarith)]

/-- On integers `rne` is the identity. -/
lemma rne_intCast (n : ℤ) : rne (n : ℚ) = n :=
  rne_eq _ n le_rfl (by norm_num)

/-- Evaluator for `truncTowardZero` on nonnegative inputs: it is the floor. -/
lemma truncTowardZero_of_nonneg (x : ℚ) (h : 0 ≤ x) :
    truncTowardZero x = ⌊x⌋ := by
  unfold truncTowardZero
  rw [if_pos h]

/-- On integers `truncTowardZero` is the identity. -/
lemma truncTowardZero_intCast (n : ℤ) : truncTowardZero (n : ℚ) = n := by
  unfold truncTowardZero
  split <;> simp

/-- The testnet step rounding, evaluated: round `quantity * 10 ^ p` to the
nearest integer (ties to even) and divide back. The outer `round(·, p)` of
the source is the identity on an exact `p`-decimal value. -/
lemma tn_round_step_size_eval (p : ℕ) (x : ℚ) :
    tn_round_step_size p x = (rne (x * 10 ^ p) : ℚ) / 10 ^ p := by
  have hp : ((10 : ℚ) ^ p) ≠ 0 := by positivity
  simp only [tn_round_step_size, pyRound]
  rw [div_eq_mul_inv x, inv_inv, inv_mul_cancel_right₀ hp, rne_intCast]

/-- The testnet tick rounding, evaluated. -/
lemma tn_round_tick_size_eval (p : ℕ) (x : ℚ) :
    tn_round_tick_size p x = (rne (x * 10 ^ p) : ℚ) / 10 ^ p := by
  have hp : ((10 : ℚ) ^ p) ≠ 0 := by positivity
  simp only [tn_round_tick_size, pyRound]
  rw [div_eq_mul_inv x, inv_inv, inv_mul_cancel_right₀ hp, rne_intCast]

/-- Combined evaluator for `truncTowardZero` from rational bounds. -/
lemma truncTowardZero_eq (x : ℚ) (n : ℤ) (h0 : 0 ≤ x) (h1 : (n : ℚ) ≤ x)
    (h2 : x < (n : ℚ) + 1) : truncTowardZero x = n := by
  rw [truncTowardZero_of_nonneg x h0]
  exact Int.floor_eq_iff.mpr ⟨h1, by linarith⟩

/-- Exact multiples of the step grid are fixed points of the testnet step
rounding. -/
lemma tn_step_fixed (p : ℕ) (n : ℤ) :
    tn_round_step_size p ((n : ℚ) / 10 ^ p) = (n : ℚ) / 10 ^ p := by
  have hp : ((10 : ℚ) ^ p) ≠ 0 := by positivity
  rw [tn_round_step_size_eval, div_mul_cancel₀ _ hp, rne_intCast]

/-- Exact multiples of the tick grid are fixed points of the testnet tick
rounding. -/
lemma tn_tick_fixed (p : ℕ) (n : ℤ) :
    tn_round_tick_size p ((n : ℚ) / 10 ^ p) = (n : ℚ) / 10 ^ p := by
  have hp : ((10 : ℚ) ^ p) ≠ 0 := by positivity
  rw [tn_round_tick_size_eval, div_mul_cancel₀ _ hp, rne_intCast]

/-- Exact multiples of the step grid are fixed points of the mainnet step
rounding. -/
lemma mn_step_fixed (p : ℕ) (n : ℤ) :
    mn_round_step_size p ((n : ℚ) / 10 ^ p) = (n : ℚ) / 10 ^ p := by
  have hp : ((10 : ℚ) ^ p) ≠ 0 := by positivity
  unfold mn_round_step_size
  rw [div_mul_cancel₀ _ hp, truncTowardZero_intCast]

/-- Exact multiples of the tick grid are fixed points of the mainnet tick
rounding. -/
lemma mn_tick_fixed (p : ℕ) (n : ℤ) :
    mn_round_tick_size p ((n : ℚ) / 10 ^ p) = (n : ℚ) / 10 ^ p := by
  have hp : ((10 : ℚ) ^ p) ≠ 0 := by positivity
  unfold mn_round_tick_size
  rw [div_mul_cancel₀ _ hp, truncTowardZero_intCast]

/-- The tie-free upward rounding fact used by several counterexamples:
on input 0.08 with size 0.1 the testnet rounding returns 0.1. -/
lemma rne_eight_tenths : rne ((8/100 : ℚ) * 10 ^ 1) = 1 := by
  have h := rne_eq_up ((8/100 : ℚ) * 10 ^ 1) 0 (by norm_num) (by norm_num)
  simpa using h

/-- C1 (amended part): for every valid size `10 ^ (-p)` and every input
`x ≥ 0`, the MAINNET `round_step_size` and `round_tick_size` truncate:
the result is an exact multiple of the size and is `≤ x`. -/
theorem mainnet_round_truncates (p : ℕ) (x : ℚ) (hx : 0 ≤ x) :
    mn_round_step_size p x ≤ x
    ∧ (∃ k : ℤ, mn_round_step_size p x = (k : ℚ) * ((10 : ℚ) ^ p)⁻¹)
    ∧ mn_round_tick_size p x ≤ x
    ∧ (∃ k : ℤ, mn_round_tick_size p x = (k : ℚ) * ((10 : ℚ) ^ p)⁻¹) := by
  have hp : (0 : ℚ) < 10 ^ p := by positivity
  have hxp : 0 ≤ x * 10 ^ p := by positivity
  have key1 : (truncTowardZero (x * 10 ^ p) : ℚ) / 10 ^ p ≤ x := by
    rw [truncTowardZero_of_nonneg _ hxp, div_le_iff₀ hp]
    exact Int.floor_le _
  have key2 : ∃ k : ℤ,
      (truncTowardZero (x * 10 ^ p) : ℚ) / 10 ^ p = (k : ℚ) * ((10 : ℚ) ^ p)⁻¹ :=
    ⟨truncTowardZero (x * 10 ^ p), by rw [div_eq_mul_inv]⟩
  exact ⟨key1, key2, key1, key2⟩

/-- C1 witness: the theorem instantiated at size 0.1 and input 0.25. -/
theorem mainnet_round_truncates_witness :
    0 ≤ (1/4 : ℚ)
    ∧ (mn_round_step_size 1 (1/4) ≤ 1/4
      ∧ (∃ k : ℤ, mn_round_step_size 1 (1/4) = (k : ℚ) * ((10 : ℚ) ^ 1)⁻¹)
      ∧ mn_round_tick_size 1 (1/4) ≤ 1/4
      ∧ (∃ k : ℤ, mn_round_tick_size 1 (1/4) = (k : ℚ) * ((10 : ℚ) ^ 1)⁻¹)) :=
  ⟨by norm_num, mainnet_round_truncates 1 (1/4) (by norm_num)⟩

/-- C1 counterexample: the claim is FALSE for the testnet variant.
With tickSize = stepSize = 0.1 and input 0.08 ≥ 0, the testnet
`round_tick_size`/`round_step_size` return 0.1, which exceeds the input,
so they do not round toward zero. -/
theorem testnet_round_exceeds_input_cex :
    tn_round_step_size 1 (8/100) = 1/10
    ∧ tn_round_tick_size 1 (8/100) = 1/10
    ∧ ¬ tn_round_step_size 1 (8/100) ≤ 8/100
    ∧ ¬ tn_round_tick_size 1 (8/100) ≤ 8/100 := by
  have hs : tn_round_step_size 1 (8/100) = 1/10 := by
    rw [tn_round_step_size_eval, rne_eight_tenths]; norm_num
  have ht : tn_round_tick_size 1 (8/100) = 1/10 := by
    rw [tn_round_tick_size_eval, rne_eight_tenths]; norm_num
  exact ⟨hs, ht, by rw [hs]; norm_num, by rw [ht]; norm_num⟩

/-- C8: all four rounding functions (testnet and mainnet, step and tick)
are idempotent: applying one twice equals applying it once. -/
theorem rounding_idempotent (p : ℕ) (x : ℚ) :
    tn_round_step_size p (tn_round_step_size p x) = tn_round_step_size p x
    ∧ tn_round_tick_size p (tn_round_tick_size p x) = tn_round_tick_size p x
    ∧ mn_round_step_size p (mn_round_step_size p x) = mn_round_step_size p x
    ∧ mn_round_tick_size p (mn_round_tick_size p x) = mn_round_tick_size p x := by
  refine ⟨?_, ?_, ?_, ?_⟩
  · rw [tn_round_step_size_eval p x]
    exact tn_step_fixed p _
  · rw [tn_round_tick_size_eval p x]
    exact tn_tick_fixed p _
  · show mn_round_step_size p ((truncTowardZero (x * 10 ^ p) : ℚ) / 10 ^ p) = _
    rw [mn_step_fixed p _]
    rfl
  · show mn_round_tick_size p ((truncTowardZero (x * 10 ^ p) : ℚ) / 10 ^ p) = _
    rw [mn_tick_fixed p _]
    rfl

/-- C8 witness: idempotence instantiated at size 0.1 and input 0.08. -/
theorem rounding_idempotent_witness :
    tn_round_step_size 1 (tn_round_step_size 1 (8/100)) = tn_round_step_size 1 (8/100)
    ∧ tn_round_tick_size 1 (tn_round_tick_size 1 (8/100)) = tn_round_tick_size 1 (8/100)
    ∧ mn_round_step_size 1 (mn_round_step_size 1 (8/100)) = mn_round_step_size 1 (8/100)
    ∧ mn_round_tick_size 1 (mn_round_tick_size 1 (8/100)) = mn_round_tick_size 1 (8/100) :=
  rounding_idempotent 1 (8/100)

/-- C4: the two variants are not extensionally equal: at tickSize 0.1 and
input 0.08 the mainnet tick rounding truncates to 0 while the testnet tick
rounding rounds to nearest, returning 0.1; likewise for the step rounding. -/
theorem mainnet_testnet_rounding_differ :
    mn_round_tick_size 1 (8/100) = 0
    ∧ tn_round_tick_size 1 (8/100) = 1/10
    ∧ mn_round_tick_size 1 (8/100) ≠ tn_round_tick_size 1 (8/100)
    ∧ mn_round_step_size 1 (8/100) ≠ tn_round_step_size 1 (8/100) := by
  have htz : truncTowardZero ((8/100 : ℚ) * 10 ^ 1) = 0 :=
    truncTowardZero_eq _ 0 (by norm_num) (by norm_num) (by norm_num)
  have hm : mn_round_tick_size 1 (8/100) = 0 := by
    unfold mn_round_tick_size
    rw [htz]; norm_num
  have hms : mn_round_step_size 1 (8/100) = 0 := by
    unfold mn_round_step_size
    rw [htz]; norm_num
  have ht : tn_round_tick_size 1 (8/100) = 1/10 := by
    rw [tn_round_tick_size_eval, rne_eight_tenths]; norm_num
  have hts : tn_round_step_size 1 (8/100) = 1/10 := by
    rw [tn_round_step_size_eval, rne_eight_tenths]; norm_num
  refine ⟨hm, ht, ?_, ?_⟩
  · rw [hm, ht]; norm_num
  · rw [hms, hts]; norm_num

/-- The step rounding of `siExample` fixes 0.001 (= minQty = stepSize). -/
lemma siExample_round_min_qty : tn_round_step_size 3 (1/1000 : ℚ) = 1/1000 := by
  have h : ((1 : ℤ) : ℚ) / 10 ^ 3 = 1/1000 := by norm_num
  rw [← h]
  exact tn_step_fixed 3 1

/-- C7: on stepSize 0.001, minQty 0.001, maxQty 1000, minNotional 5,
markPrice 50000 and notionalAmount 10, the testnet `_calculate_quantity`
computes rawQuantity 10/50000 = 0.0002, raises it to minQty 0.001 (whose
notional 0.001·50000 = 50 meets the minNotional 5), and returns 0.001. -/
theorem calculate_quantity_spec_example :
    calculate_quantity siExample 10 50000 = 1/1000
    ∧ (10 : ℚ) / 50000 = 2/10000
    ∧ (10 : ℚ) / 50000 < siExample.min_qty
    ∧ siExample.min_notional ≤ siExample.min_qty * 50000 := by
  refine ⟨?_, by norm_num, by norm_num [siExample], by norm_num [siExample]⟩
  simp only [calculate_quantity, SymbolInfo.round_step_size, siExample]
  norm_num [siExample_round_min_qty]

/-- The step rounding of `siCoarseStep` (stepSize 0.01) takes 5/7 down to
0.71, because 500/7 = 71.43 rounds to 71. -/
lemma siCoarseStep_round_five_sevenths :
    tn_round_step_size 2 (5/7 : ℚ) = 71/100 := by
  have hr : rne ((5/7 : ℚ) * 10 ^ 2) = 71 := by
    apply rne_eq _ 71 <;> norm_num
  rw [tn_round_step_size_eval, hr]
  norm_num

/-- C2 (code_bug evidence): with stepSize 0.01, minNotional 5, markPrice 7
and notionalAmount 5, the final minNotional recompute in
`_calculate_quantity` returns ceil(5/7·1000)/1000 = 0.715 — the grid is
hard-coded to 0.001, so the result is NOT a multiple of the symbol's
stepSize 0.01 and differs from the ceiling 0.72 on the stepSize grid that
the claim describes. -/
theorem calculate_quantity_hardcoded_ceiling :
    calculate_quantity siCoarseStep 5 7 = 143/200
    ∧ (¬ ∃ k : ℤ, (143/200 : ℚ) = (k : ℚ) * ((10 : ℚ) ^ siCoarseStep.step_size_prec)⁻¹)
    ∧ (143/200 : ℚ) ≠ 72/100 := by
  refine ⟨?_, ?_, by norm_num⟩
  · have hceil : ⌈(5000 / 7 : ℚ)⌉ = 715 := by
      rw [Int.ceil_eq_iff]
      norm_num
    simp only [calculate_quantity, SymbolInfo.round_step_size, siCoarseStep]
    norm_num [siCoarseStep_round_five_sevenths, hceil]
  · rintro ⟨k, hk⟩
    simp only [siCoarseStep] at hk
    have h2 : (2 * k : ℚ) = 143 := by
      field_simp at hk
      linarith
    have h3 : ((2 * k : ℤ) : ℚ) = ((143 : ℤ) : ℚ) := by push_cast; linarith
    have h4 : (2 * k : ℤ) = 143 := Int.cast_injective h3
    omega

/-- The step rounding of `siSmallMax` fixes the integer 2 (= maxQty). -/
lemma siSmallMax_round_max_qty : tn_round_step_size 3 (2 : ℚ) = 2 := by
  have h : ((2000 : ℤ) : ℚ) / 10 ^ 3 = 2 := by norm_num
  rw [← h]
  exact tn_step_fixed 3 2000

/-- C3 (code_bug evidence): with maxQty 2, minNotional 5, markPrice 1 and
notionalAmount 10, `_calculate_quantity` clamps to maxQty 2, finds the
notional 2 below minNotional 5, recomputes 5.0 — and returns it, strictly
above maxQty, raising no error (the function has no error path at all). -/
theorem calculate_quantity_exceeds_max_qty :
    calculate_quantity siSmallMax 10 1 = 5
    ∧ siSmallMax.max_qty < calculate_quantity siSmallMax 10 1 := by
  have hmain : calculate_quantity siSmallMax 10 1 = 5 := by
    have hceil : ⌈(5 : ℚ) / 1 * 1000⌉ = 5000 := by
      norm_num
    simp only [calculate_quantity, SymbolInfo.round_step_size, siSmallMax]
    norm_num [siSmallMax_round_max_qty, hceil]
  refine ⟨hmain, ?_⟩
  rw [hmain]
  norm_num [siSmallMax]

/-- C5: constructing the mainnet `BinanceFuturesClient` always fails
before any order logic runs.  Whatever the outcomes of the filesystem and
network steps, `__init__` never succeeds; when those external steps
succeed, the failure is precisely the attribute lookup of the undefined
`_load_trading_parameters`.  Moreover none of the methods
`prepare_and_place_order` would need (`_set_leverage`,
`_get_current_price`, `_calculate_quantity`, `place_order`) is defined on
the class, so no order can ever be computed or submitted. -/
theorem mainnet_init_always_fails :
    ∀ validate_ok config_ok client_ok : Bool,
      isErr (mainnet_init validate_ok config_ok client_ok) = true
      ∧ mainnet_init true true true
          = Except.error ("AttributeError: _load_trading_parameters")
      ∧ (mainnet_order_methods.all
          (fun m => !(mainnet_defined_methods.contains m))) = true := by
  intro v c k
  refine ⟨?_, rfl, rfl⟩
  cases v <;> cases c <;> cases k <;> rfl

/-- C9: the parameter-building part of testnet `place_order` errors exactly
when the order type is LIMIT and no price was supplied; and for a
non-LIMIT order the submitted request carries no price and no
time-in-force field even when a price argument is given. -/
theorem place_order_error_iff (symbol side order_type : String) (quantity : ℚ)
    (reduce_only : Bool) (price : Option ℚ) (time_in_force : String) :
    (isErr (place_order symbol side order_type quantity reduce_only price time_in_force) = true
      ↔ order_type = "LIMIT" ∧ price = none)
    ∧ (¬ order_type = "LIMIT" →
        place_order symbol side order_type quantity reduce_only price time_in_force
          = Except.ok { symbol := symbol, side := side, type := order_type,
                        quantity := quantity, reduceOnly := reduce_only,
                        price := none, timeInForce := none }) := by
  by_cases h : order_type = "LIMIT"
  · cases price <;> simp [place_order, isErr, h]
  · simp [place_order, isErr, h]

/-- C9 witness: a MARKET order with a price argument submits successfully
and emits neither a price nor a time-in-force field. -/
theorem place_order_error_iff_witness :
    ¬ (("MARKET" : String) = "LIMIT")
    ∧ place_order ("BTCUSDT") ("BUY") ("MARKET") 1 false (some 5) ("GTC")
      = Except.ok { symbol := "BTCUSDT", side := "BUY", type := "MARKET",
                    quantity := 1, reduceOnly := false,
                    price := none, timeInForce := none } :=
  ⟨by decide,
   (place_order_error_iff ("BTCUSDT") ("BUY") ("MARKET") 1 false (some 5)
     ("GTC")).2 (by decide)⟩

/-- C10: `TradingParameters` maps the side label to BUY exactly when its
uppercasing equals LONG, and to SELL in every other case; unrecognized
labels such as FOO or the empty string silently become SELL with no
validation error, while long and LoNg become BUY. -/
theorem side_label_mapping (symbol : String) (leverage : ℤ)
    (side order_type : String) (usdt_amount : ℚ) (reduce_only : Bool) :
    ((mkTradingParameters symbol leverage side order_type usdt_amount reduce_only).side = "BUY"
      ↔ pyUpper side = "LONG")
    ∧ ((mkTradingParameters symbol leverage side order_type usdt_amount reduce_only).side = "SELL"
      ↔ ¬ pyUpper side = "LONG")
    ∧ (mkTradingParameters ("S") 1 ("FOO") ("MARKET") 1 false).side = "SELL"
    ∧ (mkTradingParameters ("S") 1 ("") ("MARKET") 1 false).side = "SELL"
    ∧ (mkTradingParameters ("S") 1 ("long") ("MARKET") 1 false).side = "BUY"
    ∧ (mkTradingParameters ("S") 1 ("LoNg") ("MARKET") 1 false).side = "BUY" := by
  have hside : (mkTradingParameters symbol leverage side order_type usdt_amount reduce_only).side
      = if pyUpper side = "LONG" then ("BUY") else ("SELL") := rfl
  refine ⟨?_, ?_, by decide, by decide, by decide, by decide⟩ <;>
    rw [hside] <;> by_cases h : pyUpper side = "LONG"
  · rw [if_pos h]
    exact iff_of_true rfl h
  · rw [if_neg h]
    exact iff_of_false (by decide) h
  · rw [if_pos h]
    exact iff_of_false (by decide) (not_not_intro h)
  · rw [if_neg h]
    exact iff_of_true rfl h

/-- The tick rounding of `siExample` (tickSize 0.1) fixes 99. -/
lemma siExample_tick_at_99 : siExample.round_tick_size (99 : ℚ) = 99 := by
  show tn_round_tick_size 1 (99 : ℚ) = 99
  have hr : rne ((99 : ℚ) * 10 ^ 1) = 990 := by
    apply rne_eq _ 990 <;> norm_num
  rw [tn_round_tick_size_eval, hr]
  norm_num

/-- The tick rounding of `siExample` (tickSize 0.1) fixes 101. -/
lemma siExample_tick_at_101 : siExample.round_tick_size (101 : ℚ) = 101 := by
  show tn_round_tick_size 1 (101 : ℚ) = 101
  have hr : rne ((101 : ℚ) * 10 ^ 1) = 1010 := by
    apply rne_eq _ 1010 <;> norm_num
  rw [tn_round_tick_size_eval, hr]
  norm_num

/-- The tick rounding of `siExample` sends 0.04 · 0.99 = 0.0396 to 0. -/
lemma siExample_tick_small_zero :
    siExample.round_tick_size ((1/25 : ℚ) * (99/100)) = 0 := by
  show tn_round_tick_size 1 ((1/25 : ℚ) * (99/100)) = 0
  have hr : rne (((1/25 : ℚ) * (99/100)) * 10 ^ 1) = 0 := by
    apply rne_eq _ 0 <;> norm_num
  rw [tn_round_tick_size_eval, hr]
  norm_num

/-- C6 counterexample: a LIMIT BUY at markPrice 0.04 with tickSize 0.1.
The protective price rounds to 0, the source's `if price:` truthiness
check treats 0.0 as missing, and the assembled order carries neither a
price nor a time-in-force field — contradicting the claim that every
LIMIT order gets price `roundToTick(markPrice · 0.99)` and GTC. -/
theorem limit_price_zero_dropped_cex :
    tpLimitBuy.order_type = "LIMIT"
    ∧ siExample.round_tick_size ((1/25 : ℚ) * (99/100)) = 0
    ∧ (prepare_order tpLimitBuy siExample (1/25)).price = none
    ∧ (prepare_order tpLimitBuy siExample (1/25)).time_in_force = none := by
  have horder : tpLimitBuy.order_type = "LIMIT" := rfl
  have hside : tpLimitBuy.side = "BUY" := rfl
  have hz2 : siExample.round_tick_size ((25 : ℚ)⁻¹ * (99/100)) = 0 := by
    rw [← one_div]
    exact siExample_tick_small_zero
  refine ⟨horder, siExample_tick_small_zero, ?_, ?_⟩ <;>
    simp [prepare_order, horder, hside, hz2]

/-- C6 (amended): whenever the tick-rounded protective price is nonzero,
`prepare_and_place_order` prices a LIMIT order at
`roundToTick(markPrice · 0.99)` for BUY and `roundToTick(markPrice · 1.01)`
for SELL, with time-in-force GTC; at markPrice 100 and tickSize 0.1 the
LIMIT BUY price is 99.0 and the LIMIT SELL price is 101.0. -/
theorem limit_price_policy :
    (∀ (tp : TradingParameters) (si : SymbolInfo) (cp : ℚ),
      tp.order_type = "LIMIT" →
      si.round_tick_size (cp * (if tp.side = "BUY" then 99/100 else 101/100)) ≠ 0 →
      (prepare_order tp si cp).price
        = some (si.round_tick_size (cp * (if tp.side = "BUY" then 99/100 else 101/100)))
      ∧ (prepare_order tp si cp).time_in_force = some ("GTC"))
    ∧ (prepare_order tpLimitBuy siExample 100).price = some 99
    ∧ (prepare_order tpLimitSell siExample 100).price = some 101
    ∧ (prepare_order tpLimitBuy siExample 100).time_in_force = some ("GTC")
    ∧ (prepare_order tpLimitSell siExample 100).time_in_force = some ("GTC") := by
  have horderb : tpLimitBuy.order_type = "LIMIT" := rfl
  have hsideb : tpLimitBuy.side = "BUY" := rfl
  have horders : tpLimitSell.order_type = "LIMIT" := rfl
  have hsides : tpLimitSell.side = "SELL" := rfl
  have hne : ("SELL" : String) ≠ "BUY" := by decide
  have hb : (prepare_order tpLimitBuy siExample 100).price = some 99
      ∧ (prepare_order tpLimitBuy siExample 100).time_in_force = some ("GTC") := by
    constructor <;>
      norm_num [prepare_order, horderb, hsideb, siExample_tick_at_99]
  have hs : (prepare_order tpLimitSell siExample 100).price = some 101
      ∧ (prepare_order tpLimitSell siExample 100).time_in_force = some ("GTC") := by
    constructor <;>
      norm_num [prepare_order, horders, hsides, hne, siExample_tick_at_101]
  refine ⟨?_, hb.1, hs.1, hb.2, hs.2⟩
  intro tp si cp h1 h2
  by_cases hside2 : tp.side = "BUY"
  · simp [hside2] at h2
    constructor <;> simp [prepare_order, h1, hside2, h2]
  · simp [hside2] at h2
    constructor <;> simp [prepare_order, h1, hside2, h2]

/-- C6 witness: the amended theorem applied to the LIMIT BUY at
markPrice 100 over `siExample`. -/
theorem limit_price_policy_witness :
    tpLimitBuy.order_type = "LIMIT"
    ∧ siExample.round_tick_size
        ((100 : ℚ) * (if tpLimitBuy.side = "BUY" then 99/100 else 101/100)) ≠ 0
    ∧ ((prepare_order tpLimitBuy siExample 100).price
        = some (siExample.round_tick_size
            ((100 : ℚ) * (if tpLimitBuy.side = "BUY" then 99/100 else 101/100)))
      ∧ (prepare_order tpLimitBuy siExample 100).time_in_force = some ("GTC")) := by
  have h1 : tpLimitBuy.order_type = "LIMIT" := rfl
  have hside : tpLimitBuy.side = "BUY" := rfl
  have h2 : siExample.round_tick_size
      ((100 : ℚ) * (if tpLimitBuy.side = "BUY" then 99/100 else 101/100)) ≠ 0 := by
    norm_num [hside, siExample_tick_at_99]
  exact ⟨h1, h2, limit_price_policy.1 tpLimitBuy siExample 100 h1 h2⟩
